import Mathlib

/-!
# MotoLive: `assets/css/script.js`

A shallow embedding of the timing script: the two-tier loader (`fetchLiveEndpoint`,
`fetchLocalTimes`, `loadData`), the four renderers and the page controller `main`.

Modelling conventions.

* A parsed JSON body is a value of `JSON`.  An object is the list of its own properties; a
  property name is looked up from the head of the list.  A number that is an integer of size
  up to 2^53 is `num`, printed in decimal; any other number (fractional, or larger) is never
  zero and is `float`, given by the text that ToString prints for it.  Strings are sequences
  of Unicode scalar values.
* A JavaScript value the script computes with is a `Val`: `undefined`, a JSON value, or one of
  the built-in constructor functions reached through the inherited property `constructor`.
* A computation that can raise an exception returns `Except JSError _`.  The message of a
  `TypeError` raised by the engine is engine specific; the texts used here are indicative, and
  what matters is that the exception is raised.
* The DOM is explicit state: every element the script looks up is a field of `Page`, `none`
  when the element is absent from the document.  The network is a function from the
  requested URL to the outcome of the request, and the requests made are logged in `World`.
-/

namespace MotoLive

/-! ## JavaScript values -/

/-- A parsed JSON value. -/
inductive JSON where
  | null
  | bool (b : Bool)
  | num (n : Int)
  | float (text : String)
  | str (s : String)
  | arr (items : List JSON)
  | obj (fields : List (String × JSON))

/-- An exception value: `new Error(message)`, a `TypeError`, or the `SyntaxError` with which
`res.json()` rejects. -/
inductive JSError where
  | error (message : String)
  | typeError (message : String)
  | parseError (message : String)
deriving DecidableEq, Repr

/-- The property `e.message`. -/
def JSError.message : JSError → String
  | .error m => m
  | .typeError m => m
  | .parseError m => m

/-- A value of the script: `undefined`, a JSON value or a built-in constructor function
(`Object`, `Array`, `String`, `Number`, `Boolean`, `Function`). -/
inductive Val where
  | undefined
  | json (j : JSON)
  | builtin (name : String)

instance instDecidableEqExcept {ε α : Type} [DecidableEq ε] [DecidableEq α] :
    DecidableEq (Except ε α)
  | .ok a, .ok b =>
    if h : a = b then isTrue (by rw [h]) else isFalse (fun h2 => h (by cases h2; rfl))
  | .error a, .error b =>
    if h : a = b then isTrue (by rw [h]) else isFalse (fun h2 => h (by cases h2; rfl))
  | .ok _, .error _ => isFalse (fun h => by cases h)
  | .error _, .ok _ => isFalse (fun h => by cases h)

/-- ToBoolean: `undefined`, `null`, `false`, `0` and the empty string are falsy. -/
def Val.truthy : Val → Bool
  | .undefined => false
  | .json .null => false
  | .json (.bool b) => b
  | .json (.num n) => n != 0
  | .json (.float _) => true
  | .json (.str s) => s != ""
  | .json (.arr _) => true
  | .json (.obj _) => true
  | .builtin _ => true

/-- Own property lookup in an object. -/
def lookup (k : String) : List (String × JSON) → Option JSON
  | [] => none
  | (k2, v) :: rest => if k2 = k then some v else lookup k rest

/-- The array index that a property name denotes: the name is the decimal numeral of the
index, without leading zeros. -/
def indexOfKey (k : String) : Option Nat :=
  match k.data with
  | [] => none
  | [c] => if c.isDigit then some (c.toNat - 48) else none
  | c :: cs =>
    if c ≠ '0' ∧ (c :: cs).all Char.isDigit then
      some ((c :: cs).foldl (fun acc d => acc * 10 + (d.toNat - 48)) 0)
    else none

/-- The UTF-16 code units of a string, each as the one-character string that indexing
returns; half of a surrogate pair is shown as U+FFFD. -/
def codeUnits : List Char → List String
  | [] => []
  | c :: cs =>
    if c.toNat < 65536 then String.singleton c :: codeUnits cs
    else "\uFFFD" :: "\uFFFD" :: codeUnits cs

/-- Property read `v.k` (also `v[k]`).  Reading a property of `undefined` or `null` is a
TypeError.  Of the property names this script reads, the inherited ones are `constructor`
(every value) and `length` (arrays, strings, functions). -/
def getProp (v : Val) (k : String) : Except JSError Val :=
  match v with
  | .undefined => .error (.typeError ("Cannot read properties of undefined (reading " ++ k ++ ")"))
  | .json .null => .error (.typeError ("Cannot read properties of null (reading " ++ k ++ ")"))
  | .json (.obj fs) =>
    match lookup k fs with
    | some x => .ok (.json x)
    | none => if k = "constructor" then .ok (.builtin "Object") else .ok .undefined
  | .json (.arr xs) =>
    if k = "length" then .ok (.json (.num xs.length))
    else match (indexOfKey k).bind (fun i => xs.get? i) with
      | some x => .ok (.json x)
      | none => if k = "constructor" then .ok (.builtin "Array") else .ok .undefined
  | .json (.str s) =>
    if k = "length" then .ok (.json (.num (codeUnits s.data).length))
    else match (indexOfKey k).bind (fun i => (codeUnits s.data).get? i) with
      | some u => .ok (.json (.str u))
      | none => if k = "constructor" then .ok (.builtin "String") else .ok .undefined
  | .json (.num _) => if k = "constructor" then .ok (.builtin "Number") else .ok .undefined
  | .json (.float _) => if k = "constructor" then .ok (.builtin "Number") else .ok .undefined
  | .json (.bool _) => if k = "constructor" then .ok (.builtin "Boolean") else .ok .undefined
  | .builtin f =>
    if k = "name" then .ok (.json (.str f))
    else if k = "length" then .ok (.json (.num 1))
    else if k = "constructor" then .ok (.builtin "Function")
    else .ok .undefined

/-- Whether an object has the own property `k`. -/
def hasOwn (k : String) (fs : List (String × JSON)) : Bool :=
  (lookup k fs).isSome

mutual
/-- ToString of a JSON value, as a template literal applies it.  An array is joined with
commas; an object prints as `[object Object]` through the inherited `toString`, unless an own
property `toString` (never callable in parsed JSON) hides it, in which case no primitive is
found and a TypeError is raised. -/
def JSON.toStr : JSON → Except JSError String
  | .null => .ok "null"
  | .bool b => .ok (if b then "true" else "false")
  | .num n => .ok (toString n)
  | .float text => .ok text
  | .str s => .ok s
  | .arr xs => joinItems xs
  | .obj fs =>
    if hasOwn "toString" fs then .error (.typeError "Cannot convert object to primitive value")
    else .ok "[object Object]"
/-- The method `Array.prototype.join` with the separator `,`: `null` prints as the empty string. -/
def joinItems : List JSON → Except JSError String
  | [] => .ok ""
  | [x] =>
    match x with
    | .null => .ok ""
    | y => y.toStr
  | x :: y :: rest =>
    match (match x with | .null => Except.ok "" | z => z.toStr), joinItems (y :: rest) with
    | .ok a, .ok b => .ok (a ++ "," ++ b)
    | .error e, _ => .error e
    | .ok _, .error e => .error e
end

/-- ToString of a value. -/
def Val.toStr : Val → Except JSError String
  | .undefined => .ok "undefined"
  | .json j => j.toStr
  | .builtin f => .ok ("function " ++ f ++ "() \x7b [native code] \x7d")

/-- The operator `a || b`: the value of `a` when it is truthy, else the value of `b`. -/
def jsOr (a b : Except JSError Val) : Except JSError Val :=
  match a with
  | .error e => .error e
  | .ok x => if x.truthy then .ok x else b

/-- The operator `a && b`: the value of `a` when it is falsy, else the value of `b`. -/
def jsAnd (a b : Except JSError Val) : Except JSError Val :=
  match a with
  | .error e => .error e
  | .ok x => if x.truthy then b else .ok x

/-- The chain `a || b1 || b2 || ...`, associated to the left as the operator is. -/
def orList (a : Except JSError Val) (bs : List (Except JSError Val)) : Except JSError Val :=
  bs.foldl jsOr a

/-- A string literal as a value. -/
def lit (s : String) : Except JSError Val := .ok (.json (.str s))

/-- The test `Array.isArray(v)`. -/
def isArray : Val → Bool
  | .json (.arr _) => true
  | _ => false

/-- The receiver of `list.forEach(...)` or `list.map(...)`: the call goes through for an array
only: a property read on `undefined` or `null` raises, and on any other value the property is
`undefined` or a JSON value, neither of which is callable. -/
def arrayMethod (method : String) : Val → Except JSError (List JSON)
  | .json (.arr xs) => .ok xs
  | .undefined => .error (.typeError ("Cannot read properties of undefined (reading " ++ method ++ ")"))
  | .json .null => .error (.typeError ("Cannot read properties of null (reading " ++ method ++ ")"))
  | _ => .error (.typeError ("list." ++ method ++ " is not a function"))

/-! ## The document, the network and the world -/

/-- An element built with `document.createElement(tag)` whose `className` and `innerHTML`
were then assigned. -/
structure Element where
  tag : String
  className : String
  innerHTML : String
deriving DecidableEq, Repr

/-- A child of one of the containers the renderers fill. -/
inductive Node where
  /-- the content obtained by assigning a markup string to the container's `innerHTML` -/
  | markup (html : String)
  /-- an element appended with `appendChild` -/
  | element (e : Element)
  /-- the constructors table: the `table` element with its class, the markup of its header,
  and the rows appended to its `tbody` -/
  | table (className : String) (thead : String) (tbody : List Element)
deriving DecidableEq, Repr

/-- The elements of the document that the script looks up; `none` is an absent element. -/
structure Page where
  /-- text of `#status` -/
  status : Option String
  /-- text of `#categoria-title` -/
  categoriaTitle : Option String
  /-- children of `#live-tbody` -/
  liveTbody : Option (List Node)
  /-- children of `#records-area` -/
  recordsArea : Option (List Node)
  /-- children of `#circuitos-list` -/
  circuitosList : Option (List Node)
  /-- children of `#constructores-table` -/
  constructoresTable : Option (List Node)
deriving DecidableEq, Repr

/-- The outcome of one `fetch`: the promise rejects (the request could not complete), or it
resolves with a response carrying a status and a body, which `res.json()` either parses or
rejects. -/
inductive FetchResult where
  | rejected (message : String)
  | response (status : Nat) (body : Except String JSON)

/-- The network: the outcome of requesting a URL. -/
abbrev Net := String → FetchResult

/-- The property `res.ok`: the status is in the range 200 to 299. -/
def statusOk (status : Nat) : Bool :=
  decide (200 ≤ status) && decide (status ≤ 299)

/-- Everything the script acts on: the document, the URLs requested so far, the console
warnings, and the timers set with `setTimeout(main, delay)` (their delays). -/
structure World where
  page : Page
  requests : List String
  warnings : List String
  timers : List Nat
deriving DecidableEq, Repr

/-- The constant `MOTOGP_LIVE_BASE` (line 5). -/
def MOTOGP_LIVE_BASE : String := "https://www.motogp.com/en/json/live_timing"

/-- The constant `REFRESH_MS` (line 6), in milliseconds. -/
def REFRESH_MS : Nat := 10000

/-- The path requested by `fetchLocalTimes`. -/
def LOCAL_TIMES_URL : String := "/MotoLive/times.json"

/-- The location of the page: its path and the decoded pairs of its query string. -/
structure Location where
  pathname : String
  search : List (String × String)
deriving DecidableEq, Repr

/-- The first value of the query parameter `name`, `none` standing for `null`. -/
def qp (loc : Location) (name : String) : Option String :=
  match loc.search.find? (fun kv => kv.1 == name) with
  | some kv => some kv.2
  | none => none

/-- The call `fetch(url)`: the request is logged and the network decides its outcome. -/
def fetch (net : Net) (url : String) (w : World) : FetchResult × World :=
  (net url, { w with requests := w.requests ++ [url] })

/-- The URL of the live endpoint for a category id. -/
def liveUrl (catId : Int) : String :=
  MOTOGP_LIVE_BASE ++ "/" ++ toString catId

/-- The function `fetchLiveEndpoint(catId)` (lines 10 to 15): a rejected request raises, a
response that is not `ok` raises `Error('HTTP ' + status)`, and otherwise the result is that of
`res.json()`. -/
def fetchLiveEndpoint (net : Net) (catId : Int) (w : World) : Except JSError JSON × World :=
  let url := liveUrl catId
  match fetch net url w with
  | (.rejected m, w1) => (.error (.typeError m), w1)
  | (.response status body, w1) =>
    if !statusOk status then (.error (.error ("HTTP " ++ toString status)), w1)
    else match body with
      | .ok b => (.ok b, w1)
      | .error m => (.error (.parseError m), w1)

/-- The function `fetchLocalTimes()` (lines 17 to 22): a rejected request is turned into
`null` by `.catch`, and a `null` or not `ok` response raises `Error('No local times.json')`;
otherwise the result is that of `res.json()`. -/
def fetchLocalTimes (net : Net) (w : World) : Except JSError JSON × World :=
  match fetch net LOCAL_TIMES_URL w with
  | (.rejected _, w1) => (.error (.error "No local times.json"), w1)
  | (.response status body, w1) =>
    if !statusOk status then (.error (.error "No local times.json"), w1)
    else match body with
      | .ok b => (.ok b, w1)
      | .error m => (.error (.parseError m), w1)

/-- The helper `documentQuery(sel, text)` for the two selectors the script passes: the text
of the selected element is replaced when the element exists. -/
def documentQuery (sel text : String) (pg : Page) : Page :=
  if sel = "#status" then { pg with status := pg.status.map (fun _ => text) }
  else if sel = "#categoria-title" then
    { pg with categoriaTitle := pg.categoriaTitle.map (fun _ => text) }
  else pg

/-- The helper `documentQuery` acting on the page of a world. -/
def World.query (w : World) (sel text : String) : World :=
  { w with page := documentQuery sel text w.page }

/-- The tagged result of the loader. -/
structure LoadResult where
  source : String
  data : JSON

/-- The function `loadData(catId)` (lines 24 to 44), called by `main` with an explicit
category id: the live fetch inside `try`, the fallback fetch inside the `catch`, and the
result tagged `none` inside the inner `catch`. -/
def loadData (net : Net) (catId : Int) (w : World) : Except JSError LoadResult × World :=
  let w1 := w.query "#status" "Estado: intentando obtener datos en vivo desde motogp.com ..."
  match fetchLiveEndpoint net catId w1 with
  | (.ok data, w2) =>
    let w3 := w2.query "#status" "Estado: datos en vivo obtenidos desde motogp.com"
    (.ok { source := "live", data := data }, w3)
  | (.error e, w2) =>
    let w3 := { w2 with warnings := w2.warnings ++ ["No se pudo usar endpoint en vivo: " ++ e.message] }
    let w4 := w3.query "#status" "Estado: cargando fallback times.json (local)"
    match fetchLocalTimes net w4 with
    | (.ok local_, w5) =>
      let w6 := w5.query "#status" "Estado: datos cargados desde times.json (local)"
      (.ok { source := "local", data := local_ }, w6)
    | (.error _, w5) =>
      let w6 := w5.query "#status" "Estado: no hay datos disponibles"
      (.ok { source := "none", data := .null }, w6)

/-! ## Statement and expression forms shared by the renderers -/

/-- The statement `if (c) t else e` on a condition that is a value. -/
def jsIf {α : Type} (c : Except JSError Val) (t e : Except JSError α) : Except JSError α :=
  match c with
  | .error err => .error err
  | .ok v => if v.truthy then t else e

/-- The property read `a.k` on the value of an expression. -/
def getOf (a : Except JSError Val) (k : String) : Except JSError Val :=
  match a with
  | .error e => .error e
  | .ok v => getProp v k

/-- The call `Array.isArray(a)` on the value of an expression. -/
def jsIsArray (a : Except JSError Val) : Except JSError Val :=
  match a with
  | .error e => .error e
  | .ok v => .ok (.json (.bool (isArray v)))

/-- A piece of a template literal: literal text, or a substitution. -/
inductive Piece where
  | text (s : String)
  | sub (v : Except JSError Val)

/-- A template literal: text is copied, and each substitution is evaluated and converted
with ToString, from left to right. -/
def template : List Piece → Except JSError String
  | [] => .ok ""
  | .text s :: rest =>
    match template rest with
    | .ok r => .ok (s ++ r)
    | .error e => .error e
  | .sub v :: rest =>
    match v with
    | .error e => .error e
    | .ok x =>
      match x.toStr with
      | .error e => .error e
      | .ok s =>
        match template rest with
        | .ok r => .ok (s ++ r)
        | .error e => .error e

/-- A loop `list.forEach((x, i) => ...)` whose body builds one element and appends it to the
container: the loop ends at the first exception and what was appended stays. -/
def appendEach {α : Type} (f : α → Nat → Except JSError Element) :
    List α → Nat → List Node → Except JSError Unit × List Node
  | [], _, acc => (.ok (), acc)
  | x :: xs, i, acc =>
    match f x i with
    | .ok el => appendEach f xs (i + 1) (acc ++ [.element el])
    | .error e => (.error e, acc)

/-- The expression `list.map(f).join('')` for a callback returning strings. -/
def mapJoin (f : JSON → Except JSError String) : List JSON → Except JSError String
  | [] => .ok ""
  | x :: xs =>
    match f x with
    | .error e => .error e
    | .ok s =>
      match mapJoin f xs with
      | .error e => .error e
      | .ok r => .ok (s ++ r)

/-! ## The live table -/

/-- The list `rows` chosen in `updateLiveTableFromData` (the `if` chain on the payload). -/
def liveRows (payload : Val) : Except JSError Val :=
  jsIf (jsAnd (.ok payload) (getProp payload "pilots")) (getProp payload "pilots")
    (jsIf (jsAnd (.ok payload) (getProp payload "rows")) (getProp payload "rows")
      (jsIf (jsIsArray (.ok payload)) (.ok payload)
        (jsIf (jsAnd (jsAnd (.ok payload) (getProp payload "data"))
            (jsIsArray (getProp payload "data")))
          (getProp payload "data")
          (.ok (.json (.arr []))))))

/-- The body of the loop of `updateLiveTableFromData`: the row built for the record `p` at
index `i`. -/
def liveRow (p : JSON) (i : Nat) : Except JSError Element := do
  let g := getProp (.json p)
  let name ← orList (g "name")
    [g "p", g "riderName", g "fullName", g "piloto", g "title", g "nickname", lit "Piloto"]
  let best ← orList (g "best")
    [g "time", g "lap", g "bestTime", jsAnd (g "t") (getOf (g "t") "0"), lit "-"]
  let tyreFront ← orList (g "tyreFront")
    [g "t_front", g "del", jsAnd (g "tyres") (getOf (g "tyres") "front"), g "tyres0", lit "-"]
  let tyreRear ← orList (g "tyreRear")
    [g "t_rear", g "tras", jsAnd (g "tyres") (getOf (g "tyres") "rear"), lit "-"]
  let brakes ← orList (g "brakes") [g "frenos", g "brake", lit "-"]
  let html ← template
    [.text "<td>", .sub (.ok (.json (.num (i + 1)))), .text "</td><td>", .sub (.ok name),
     .text "</td><td>", .sub (.ok best), .text "</td><td>", .sub (.ok tyreFront),
     .text " / ", .sub (.ok tyreRear), .text "</td><td>", .sub (.ok brakes), .text "</td>"]
  pure { tag := "tr", className := "", innerHTML := html }

/-- The function `updateLiveTableFromData(catId, payload)` (lines 53 to 78): nothing happens
without `#live-tbody`; otherwise its content is cleared and one row is appended per entry of
the chosen list. -/
def updateLiveTableFromData (_catId : Int) (payload : JSON) (pg : Page) :
    Except JSError Unit × Page :=
  match pg.liveTbody with
  | none => (.ok (), pg)
  | some _ =>
    let pg1 := { pg with liveTbody := some [] }
    match liveRows (.json payload) with
    | .error e => (.error e, pg1)
    | .ok rows =>
      match arrayMethod "forEach" rows with
      | .error e => (.error e, pg1)
      | .ok xs =>
        let out := appendEach liveRow xs 0 []
        (out.1, { pg with liveTbody := some out.2 })

/-! ## The records cards -/

/-- An entry of the fixed category list of `updateRecordsFromData`. -/
structure Category where
  id : Nat
  name : String
deriving DecidableEq, Repr

/-- The constant list `categories` of `updateRecordsFromData` (line 86). -/
def categories : List Category :=
  [{ id := 1, name := "MotoGP" }, { id := 2, name := "Moto2" }, { id := 3, name := "Moto3" }]

/-- The list chosen for one category in `updateRecordsFromData`. -/
def recordsList (payload : Val) (cat : Category) : Except JSError Val :=
  jsIf (jsAnd (.ok payload) (getProp payload cat.name)) (getProp payload cat.name)
    (jsIf (jsAnd (jsAnd (.ok payload) (getProp payload "pilots"))
        (getOf (getProp payload "pilots") (toString cat.id)))
      (getOf (getProp payload "pilots") (toString cat.id))
      (jsIf (jsIsArray (.ok payload)) (.ok payload) (.ok (.json (.arr [])))))

/-- The list item built for one record in `updateRecordsFromData`. -/
def recordItem (p : JSON) : Except JSError String :=
  let g := getProp (.json p)
  template
    [.text "<li><strong>", .sub (orList (g "name") [g "p", g "fullName"]),
     .text "</strong> — ", .sub (orList (g "best") [g "time", lit "-"]),
     .text " <small class='small'>(",
     .sub (jsIf (g "tyres") (getOf (g "tyres") "front") (jsOr (g "del") (lit "-"))),
     .text "/",
     .sub (jsIf (g "tyres") (getOf (g "tyres") "rear") (jsOr (g "tras") (lit "-"))),
     .text ", frenos:", .sub (orList (g "brakes") [g "frenos", lit "-"]),
     .text ")</small></li>"]

/-- The body of the loop over the categories: the card built for one category. -/
def recordsCard (payload : JSON) (cat : Category) (_i : Nat) : Except JSError Element := do
  let list ← recordsList (.json payload) cat
  let xs ← arrayMethod "map" list
  let joined ← mapJoin recordItem xs
  let items := if joined != "" then joined else "<li>No hay datos</li>"
  pure { tag := "div", className := "card",
         innerHTML := "<h3>" ++ cat.name ++ "</h3><ul>" ++ items ++ "</ul>" }

/-- The function `updateRecordsFromData(payload)` (lines 81 to 98): nothing happens without
`#records-area`; otherwise its content is cleared and one card is appended per category. -/
def updateRecordsFromData (payload : JSON) (pg : Page) : Except JSError Unit × Page :=
  match pg.recordsArea with
  | none => (.ok (), pg)
  | some _ =>
    let out := appendEach (recordsCard payload) categories 0 []
    (out.1, { pg with recordsArea := some out.2 })

/-! ## The circuit cards -/

/-- The list chosen in `updateCircuitsFromData`:
`payload && (payload.circuits || payload.circuitos) || []`. -/
def circuitsList (payload : Val) : Except JSError Val :=
  jsOr (jsAnd (.ok payload) (jsOr (getProp payload "circuits") (getProp payload "circuitos")))
    (.ok (.json (.arr [])))

/-- The comparison `v === 0`. -/
def strictEqZero : Val → Bool
  | .json (.num n) => n == 0
  | _ => false

/-- The markup assigned to the container when the list is empty. -/
def noCircuitsCard : String :=
  "<div class=\"card\"><h3>No hay circuitos</h3><p class=\"small\">Sube circuitos en times.json o en tu API</p></div>"

/-- The body of the loop of `updateCircuitsFromData`: the card built for the circuit `c`. -/
def circuitCard (c : JSON) (_i : Nat) : Except JSError Element := do
  let g := getProp (.json c)
  let clima ← orList (g "clima") [g "weather", .ok (.json (.obj []))]
  let ultimo ← orList (g "ultimo_mejor") [g "last_best", .ok (.json (.obj []))]
  let u := getProp ultimo
  let k := getProp clima
  let html ← template
    [.text "<h3>", .sub (jsOr (g "name") (g "nombre")),
     .text "</h3>\n      <p class=\"muted\">Fechas: ", .sub (orList (g "dias") [g "dates", lit "-"]),
     .text "</p>\n      <p>Último mejor: <strong>", .sub (orList (u "piloto") [u "name", lit "-"]),
     .text "</strong> ", .sub (orList (u "tiempo") [u "time", lit "-"]),
     .text " <small class='small'>(", .sub (jsOr (u "del") (lit "-")),
     .text " / ", .sub (jsOr (u "tras") (lit "-")),
     .text " frenos: ", .sub (jsOr (u "frenos") (lit "-")),
     .text ")</small></p>\n      <p class='small'>Clima: ",
     .sub (orList (k "cond") [k "condition", lit "-"]),
     .text " · Ambiente ", .sub (orList (k "ambiente") [k "temp_air", lit "-"]),
     .text "°C · Pista ", .sub (orList (k "pista") [k "temp_track", lit "-"]),
     .text "°C</p>"]
  pure { tag := "div", className := "card", innerHTML := html }

/-- The function `updateCircuitsFromData(payload)` (lines 101 to 122): nothing happens without
`#circuitos-list`; otherwise its content is cleared, and it receives the placeholder markup
when `list.length === 0`, else one card per entry of the list. -/
def updateCircuitsFromData (payload : JSON) (pg : Page) : Except JSError Unit × Page :=
  match pg.circuitosList with
  | none => (.ok (), pg)
  | some _ =>
    let pg1 := { pg with circuitosList := some [] }
    match circuitsList (.json payload) with
    | .error e => (.error e, pg1)
    | .ok list =>
      match getProp list "length" with
      | .error e => (.error e, pg1)
      | .ok len =>
        if strictEqZero len then
          (.ok (), { pg with circuitosList := some [.markup noCircuitsCard] })
        else
          match arrayMethod "forEach" list with
          | .error e => (.error e, pg1)
          | .ok xs =>
            let out := appendEach circuitCard xs 0 []
            (out.1, { pg with circuitosList := some out.2 })

/-! ## The constructors table -/

/-- The list chosen in `updateConstructorsFromData`:
`payload && (payload.constructores || payload.constructors || payload.builders) || payload || []`. -/
def constructorsList (payload : Val) : Except JSError Val :=
  orList
    (jsAnd (.ok payload)
      (orList (getProp payload "constructores")
        [getProp payload "constructors", getProp payload "builders"]))
    [.ok payload, .ok (.json (.arr []))]

/-- The body of the loop of `updateConstructorsFromData`: the row built for `c`. -/
def constructorRow (c : JSON) (_i : Nat) : Except JSError Element := do
  let g := getProp (.json c)
  let name ← orList (g "name") [g "nombre", g "constructor", lit "-"]
  let pts ← orList (g "points") [g "puntos", g "points_total", .ok (.json (.num 0))]
  let color ← orList (g "color") [g "colour", g "hex", lit "#888"]
  let html ← template
    [.text "<td><span class='pilot-color' style='background:", .sub (.ok color),
     .text "'></span>", .sub (.ok name), .text "</td><td>", .sub (.ok pts), .text "</td>"]
  pure { tag := "tr", className := "", innerHTML := html }

/-- The header of the constructors table, from the markup assigned to `table.innerHTML`
(the rest of that markup is the empty `tbody` the rows are appended to). -/
def constructorsThead : String :=
  "<thead><tr><th>Constructor</th><th>Puntos</th></tr></thead>"

/-- The rows of a list of appended nodes. -/
def elementsOf : List Node → List Element
  | [] => []
  | .element e :: rest => e :: elementsOf rest
  | _ :: rest => elementsOf rest

/-- The function `updateConstructorsFromData(payload)` (lines 125 to 143): nothing happens
without `#constructores-table`; otherwise its content is cleared, the rows are appended to the
body of a new table, and the table is appended to the container after the loop. -/
def updateConstructorsFromData (payload : JSON) (pg : Page) : Except JSError Unit × Page :=
  match pg.constructoresTable with
  | none => (.ok (), pg)
  | some _ =>
    let pg1 := { pg with constructoresTable := some [] }
    match constructorsList (.json payload) with
    | .error e => (.error e, pg1)
    | .ok list =>
      match arrayMethod "forEach" list with
      | .error e => (.error e, pg1)
      | .ok xs =>
        match appendEach constructorRow xs 0 [] with
        | (.error e, _) => (.error e, pg1)
        | (.ok _, rows) =>
          let table : Node := .table "table" constructorsThead (elementsOf rows)
          (.ok (), { pg with constructoresTable := some [table] })

/-! ## The page controller -/

/-- The method `s.split(sep)` for a one-character separator, on the characters of `s`. -/
def splitChars (sep : Char) : List Char → List (List Char)
  | [] => [[]]
  | c :: cs =>
    if c = sep then [] :: splitChars sep cs
    else
      match splitChars sep cs with
      | [] => [[c]]
      | seg :: rest => (c :: seg) :: rest

/-- The expression `location.pathname.split('/').pop()`. -/
def pageName (pathname : String) : String :=
  String.mk ((splitChars '/' pathname.data).getLastD [])

/-- White space that `parseInt` skips at the start of its input (WhiteSpace and
LineTerminator of the language). -/
def isStrWhiteSpace (c : Char) : Bool :=
  let n := c.toNat
  n == 9 || n == 10 || n == 11 || n == 12 || n == 13 || n == 32 || n == 160 || n == 5760 ||
  (decide (8192 ≤ n) && decide (n ≤ 8202)) || n == 8232 || n == 8233 || n == 8239 ||
  n == 8287 || n == 12288 || n == 65279

/-- The value of a character as a digit, up to radix 36. -/
def digitValue (c : Char) : Option Nat :=
  let n := c.toNat
  if 48 ≤ n ∧ n ≤ 57 then some (n - 48)
  else if 97 ≤ n ∧ n ≤ 122 then some (n - 97 + 10)
  else if 65 ≤ n ∧ n ≤ 90 then some (n - 65 + 10)
  else none

/-- The values of the longest run of digits of the radix at the start of the input. -/
def takeDigits (radix : Nat) : List Char → List Nat
  | [] => []
  | c :: cs =>
    match digitValue c with
    | some d => if d < radix then d :: takeDigits radix cs else []
    | none => []

/-- The global `parseInt(input)` with no radix argument, `none` standing for NaN.  The result
is the mathematical integer; its rounding to a Number (beyond 2^53) is not represented. -/
def parseInt (input : String) : Option Int :=
  let s := input.data.dropWhile isStrWhiteSpace
  let sign : Int := match s with
    | '-' :: _ => -1
    | _ => 1
  let s1 := match s with
    | '+' :: r => r
    | '-' :: r => r
    | _ => s
  let rs : Nat × List Char := match s1 with
    | '0' :: 'x' :: r => (16, r)
    | '0' :: 'X' :: r => (16, r)
    | _ => (10, s1)
  let z := takeDigits rs.1 rs.2
  if z.isEmpty then none
  else some (sign * ((z.foldl (fun acc d => acc * rs.1 + d) 0 : Nat) : Int))

/-- The expression `parseInt(qp('cat')) || 1` of `main`; a missing parameter is `null`, which
`parseInt` reads as the text `null`. -/
def mainCatId (loc : Location) : Int :=
  match parseInt ((qp loc "cat").getD "null") with
  | some n => if n != 0 then n else 1
  | none => 1

/-- The object `catNames` of `main`, read at the key `catId`. -/
def catNames (catId : Int) : Option String :=
  if catId = 1 then some "MotoGP"
  else if catId = 2 then some "Moto2"
  else if catId = 3 then some "Moto3"
  else none

/-- Sequencing of two statements acting on the page: the second runs when the first did not
raise. -/
def andThen (s : Except JSError Unit × Page) (f : Page → Except JSError Unit × Page) :
    Except JSError Unit × Page :=
  match s with
  | (.ok _, pg) => f pg
  | (.error e, pg) => (.error e, pg)

/-- The four `if` statements of `main` that dispatch on the page name, in order; an
exception raised by a renderer ends the sequence. -/
def renderPage (path : String) (catId : Int) (payload : JSON) (pg : Page) :
    Except JSError Unit × Page :=
  let s1 : Except JSError Unit × Page :=
    if path = "live.html" ∨ path = "" then
      updateLiveTableFromData catId payload
        (documentQuery "#categoria-title"
          ("Categoría: " ++ (catNames catId).getD (toString catId)) pg)
    else (.ok (), pg)
  let s2 := andThen s1 (fun pg =>
    if path = "records.html" then updateRecordsFromData payload pg else (.ok (), pg))
  let s3 := andThen s2 (fun pg =>
    if path = "circuitos.html" then updateCircuitsFromData payload pg else (.ok (), pg))
  andThen s3 (fun pg =>
    if path = "constructores.html" then updateConstructorsFromData payload pg else (.ok (), pg))

/-- The function `main()` (lines 146 to 169): the category id is resolved, the loader is
awaited, the renderers of the current page run, and `setTimeout(main, REFRESH_MS)` is the last
statement, reached when nothing before it raised. -/
def main (net : Net) (loc : Location) (w : World) : Except JSError Unit × World :=
  let path := pageName loc.pathname
  let catId := mainCatId loc
  match loadData net catId w with
  | (.error e, w1) => (.error e, w1)
  | (.ok result, w1) =>
    let payload := result.data
    match renderPage path catId payload w1.page with
    | (.error e, pg) => (.error e, { w1 with page := pg })
    | (.ok _, pg) => (.ok (), { w1 with page := pg, timers := w1.timers ++ [REFRESH_MS] })

/-! ## Definitions used in the statements -/

/-- A page on which every element the script looks up is present and empty. -/
def blankPage : Page :=
  { status := some "", categoriaTitle := some "", liveTbody := some [], recordsArea := some [],
    circuitosList := some [], constructoresTable := some [] }

/-- A world on the blank page in which nothing has happened yet. -/
def blankWorld : World :=
  { page := blankPage, requests := [], warnings := [], timers := [] }

/-- The value of the query parameter is a text that `parseInt` reads as a positive integer. -/
def parsesPositive (cat : Option String) : Prop :=
  ∃ s n, cat = some s ∧ parseInt s = some n ∧ 0 < n

/-- The value of the query parameter is a text that `parseInt` reads as an integer other
than zero. -/
def parsesNonZero (cat : Option String) : Prop :=
  ∃ s n, cat = some s ∧ parseInt s = some n ∧ n ≠ 0

/-- The five texts of a rider record. -/
structure Rider where
  name : String
  best : String
  front : String
  rear : String
  brakes : String
deriving DecidableEq, Repr

/-- The names `updateLiveTableFromData` reads from a record besides `name`, `best`, `tyres`
and `brakes`. -/
def otherLiveKeys : List String :=
  ["p", "riderName", "fullName", "piloto", "title", "nickname", "time", "lap", "bestTime", "t",
   "tyreFront", "t_front", "del", "tyres0", "tyreRear", "t_rear", "tras", "frenos", "brake"]

/-- The record `p` carries the five non-empty texts of `r` under `name`, `best`,
`tyres.front`, `tyres.rear` and `brakes`, and no other recognised name. -/
def IsRider (p : JSON) (r : Rider) : Prop :=
  ∃ fs ts, p = .obj fs ∧
    lookup "name" fs = some (.str r.name) ∧ r.name ≠ "" ∧
    lookup "best" fs = some (.str r.best) ∧ r.best ≠ "" ∧
    lookup "tyres" fs = some (.obj ts) ∧
    lookup "front" ts = some (.str r.front) ∧ r.front ≠ "" ∧
    lookup "rear" ts = some (.str r.rear) ∧ r.rear ≠ "" ∧
    lookup "brakes" fs = some (.str r.brakes) ∧ r.brakes ≠ "" ∧
    ∀ k ∈ otherLiveKeys, lookup k fs = none

/-- The row element that line 75 builds for a rider at position `k`: its markup is the five
texts interpolated, unescaped, between `<td>` and `</td>`. -/
def riderRow (k : Nat) (r : Rider) : Node :=
  .element { tag := "tr", className := "", innerHTML :=
    "<td>" ++ toString k ++ "</td><td>" ++ r.name ++ "</td><td>" ++ r.best ++ "</td><td>" ++
      r.front ++ " / " ++ r.rear ++ "</td><td>" ++ r.brakes ++ "</td>" }

/-- The row elements built for a list of riders, in list order, numbered from `k`. -/
def riderRows : Nat → List Rider → List Node
  | _, [] => []
  | k, r :: rs => riderRow k r :: riderRows (k + 1) rs

/-- A character that the HTML parser does not copy as it stands into the text of a cell: `<`
opens a tag, `&` opens a character reference, a carriage return is normalised to a line feed
and a NUL character is dropped. -/
def isMarkupChar (c : Char) : Bool :=
  c == '<' || c == '&' || c.toNat == 13 || c.toNat == 0

/-- The text contains no character that the HTML parser treats as markup. -/
def plainText (s : String) : Bool :=
  s.data.all (fun c => !isMarkupChar c)

/-- The five texts of the rider are plain. -/
def PlainRider (r : Rider) : Prop :=
  plainText r.name = true ∧ plainText r.best = true ∧ plainText r.front = true ∧
  plainText r.rear = true ∧ plainText r.brakes = true

mutual
/-- Reading of a markup string as the browser parses it, for markup made of tags without
attributes and plain text: from inside a text run (`txt` is the text read so far), the text up
to the next `<` and then the tags that follow, each with the text after it.  Markup outside
this fragment (a character reference, a carriage return, a NUL character, an unclosed tag)
gives `none`. -/
def readText : List Char → List Char → Option (String × List (String × String))
  | [], txt => some (String.mk txt, [])
  | c :: cs, txt =>
    if c = '<' then
      match readTag cs [] with
      | some pairs => some (String.mk txt, pairs)
      | none => none
    else if isMarkupChar c then none
    else readText cs (txt ++ [c])
/-- Reading from inside a tag (`tag` is the name read so far), up to the closing `>`. -/
def readTag : List Char → List Char → Option (List (String × String))
  | [], _ => none
  | c :: cs, tag =>
    if c = '>' then
      match readText cs [] with
      | some (txt, pairs) => some ((String.mk tag, txt) :: pairs)
      | none => none
    else readTag cs (tag ++ [c])
end

/-- The texts of the cells of a row whose tags come in pairs `<td>` text `</td>` with nothing
between the cells. -/
def cellsOfPairs : List (String × String) → Option (List String)
  | [] => some []
  | (a, t) :: (b, u) :: rest =>
    if a = "td" ∧ b = "/td" ∧ u = "" then
      match cellsOfPairs rest with
      | some cells => some (t :: cells)
      | none => none
    else none
  | _ => none

/-- The cells of the row that the markup `html`, assigned to the `innerHTML` of a `tr`,
produces: the text of each `td`, in order. -/
def rowCells (html : String) : Option (List String) :=
  match readText html.data [] with
  | some (txt, pairs) => if txt = "" then cellsOfPairs pairs else none
  | none => none

/-- The cells of the rows of a table body, row by row. -/
def tableCells : List Node → Option (List (List String))
  | [] => some []
  | .element e :: rest =>
    if e.tag = "tr" then
      match rowCells e.innerHTML, tableCells rest with
      | some cells, some more => some (cells :: more)
      | _, _ => none
    else none
  | _ :: _ => none

/-- The cells the claim gives the row of a rider at position `k`: `k`, name, best,
`front / rear`, brakes. -/
def riderCells (k : Nat) (r : Rider) : List String :=
  [toString k, r.name, r.best, r.front ++ " / " ++ r.rear, r.brakes]

/-- The cells the claim gives the rows of a list of riders, numbered from `k`. -/
def cellsFrom : Nat → List Rider → List (List String)
  | _, [] => []
  | k, r :: rs => riderCells k r :: cellsFrom (k + 1) rs

/-- The tags and texts of a row of cells with the given texts. -/
def cellPairs : List String → List (String × String)
  | [] => []
  | t :: ts => ("td", t) :: ("/td", "") :: cellPairs ts

/-- The markup of a row of cells with the given texts. -/
def cellsMarkup : List String → String
  | [] => ""
  | t :: ts => "<td>" ++ t ++ "</td>" ++ cellsMarkup ts

/-- The own property `k` of a payload that is an object; a payload of another kind has no
property of the names `pilots`, `rows` and `data`. -/
def ownProp (payload : JSON) (k : String) : Val :=
  match payload with
  | .obj fs =>
    match lookup k fs with
    | some v => .json v
    | none => .undefined
  | _ => .undefined

/-- The record list in the words of the specification: the `pilots` property, then the `rows`
property, then the payload itself when it is an array, then the `data` property when that is
an array, and the empty list when none matches.  A property matches when it holds a truthy
value. -/
def specRows (payload : JSON) : Val :=
  if (ownProp payload "pilots").truthy then ownProp payload "pilots"
  else if (ownProp payload "rows").truthy then ownProp payload "rows"
  else if isArray (.json payload) then .json payload
  else if isArray (ownProp payload "data") then ownProp payload "data"
  else .json (.arr [])

/-! ## Theorems -/

set_option maxRecDepth 8000

/-- The outcome of `fetchLiveEndpoint` is decided by the network alone. -/
theorem fetchLiveEndpoint_fst (net : Net) (catId : Int) (w w2 : World) :
    (fetchLiveEndpoint net catId w).1 = (fetchLiveEndpoint net catId w2).1 := by
  simp only [fetchLiveEndpoint, fetch]
  cases hr : net (liveUrl catId) with
  | rejected m => rfl
  | response status body =>
    cases h : statusOk status <;> cases body <;> simp [h]

/-- The request logged by `fetchLiveEndpoint`. -/
theorem fetchLiveEndpoint_requests (net : Net) (catId : Int) (w : World) :
    (fetchLiveEndpoint net catId w).2 = { w with requests := w.requests ++ [liveUrl catId] } := by
  simp only [fetchLiveEndpoint, fetch]
  cases hr : net (liveUrl catId) with
  | rejected m => rfl
  | response status body =>
    cases h : statusOk status <;> cases body <;> simp [h]

theorem liveUrl_ne_local (catId : Int) : liveUrl catId ≠ LOCAL_TIMES_URL := by
  intro h
  have h2 := congrArg String.data h
  simp [liveUrl, MOTOGP_LIVE_BASE, LOCAL_TIMES_URL] at h2

/-- C1: when `fetchLiveEndpoint` resolves with `b`, `loadData` returns the result tagged
`live` carrying `b`, and the only request made during the call is the one to the live
endpoint: the fallback file is not requested, so `fetchLocalTimes` did not run. -/
theorem loadData_live (net : Net) (catId : Int) (b : JSON) (w : World)
    (h : (fetchLiveEndpoint net catId w).1 = .ok b) :
    (loadData net catId w).1 = .ok { source := "live", data := b } ∧
    (loadData net catId w).2.requests = w.requests ++ [liveUrl catId] ∧
    LOCAL_TIMES_URL ∉ [liveUrl catId] := by
  have h1 := fetchLiveEndpoint_fst net catId
    (w.query "#status" "Estado: intentando obtener datos en vivo desde motogp.com ...") w
  have h2 := fetchLiveEndpoint_requests net catId
    (w.query "#status" "Estado: intentando obtener datos en vivo desde motogp.com ...")
  rw [h] at h1
  refine ⟨?_, ?_, ?_⟩
  · unfold loadData
    simp only []
    split
    · next data w2 heq =>
      rw [heq] at h1
      simp at h1
      simp [h1]
    · next e w2 heq =>
      rw [heq] at h1
      simp at h1
  · unfold loadData
    simp only []
    split
    · next data w2 heq =>
      rw [heq] at h2
      simp at h2
      simp [h2, World.query]
    · next e w2 heq =>
      rw [heq] at h1
      simp at h1
  · simp
    exact fun h3 => liveUrl_ne_local catId h3.symm

/-- Witness for `loadData_live`: the live endpoint answers 200 with the body `[]`. -/
theorem loadData_live_witness :
    (fetchLiveEndpoint (fun _ => .response 200 (.ok (.arr []))) 1 ⟨⟨none, none, none, none, none, none⟩, [], [], []⟩).1
      = .ok (.arr []) ∧
    ((loadData (fun _ => .response 200 (.ok (.arr []))) 1 ⟨⟨none, none, none, none, none, none⟩, [], [], []⟩).1
      = .ok { source := "live", data := .arr [] } ∧
    (loadData (fun _ => .response 200 (.ok (.arr []))) 1 ⟨⟨none, none, none, none, none, none⟩, [], [], []⟩).2.requests
      = [] ++ [liveUrl 1] ∧
    LOCAL_TIMES_URL ∉ [liveUrl 1]) :=
  ⟨rfl, loadData_live (fun _ => .response 200 (.ok (.arr []))) 1 (.arr [])
    ⟨⟨none, none, none, none, none, none⟩, [], [], []⟩ rfl⟩

/-- The outcome of `fetchLocalTimes` is decided by the network alone. -/
theorem fetchLocalTimes_fst (net : Net) (w : World) :
    (fetchLocalTimes net w).1 =
      match net LOCAL_TIMES_URL with
      | .rejected _ => .error (.error "No local times.json")
      | .response status body =>
        if statusOk status then
          match body with
          | .ok b => .ok b
          | .error m => .error (.parseError m)
        else .error (.error "No local times.json") := by
  simp only [fetchLocalTimes, fetch]
  cases hr : net LOCAL_TIMES_URL with
  | rejected m => rfl
  | response status body =>
    cases h : statusOk status <;> cases body <;> simp [h]

/-- When the live fetch fails, the result of `loadData` is read off the fallback fetch. -/
theorem loadData_of_live_error (net : Net) (catId : Int) (w : World) (e : JSError)
    (h : (fetchLiveEndpoint net catId w).1 = .error e) :
    (loadData net catId w).1 =
      match net LOCAL_TIMES_URL with
      | .rejected _ => .ok { source := "none", data := .null }
      | .response status body =>
        if statusOk status then
          match body with
          | .ok b => .ok { source := "local", data := b }
          | .error _ => .ok { source := "none", data := .null }
        else .ok { source := "none", data := .null } := by
  have h1 := fetchLiveEndpoint_fst net catId
    (w.query "#status" "Estado: intentando obtener datos en vivo desde motogp.com ...") w
  rw [h] at h1
  unfold loadData
  simp only []
  split
  · next data w2 heq =>
    rw [heq] at h1
    simp at h1
  · next e2 w2 heq =>
    split
    · next b w5 heq2 =>
      have h3 := fetchLocalTimes_fst net
        (World.query { w2 with warnings := w2.warnings ++ ["No se pudo usar endpoint en vivo: " ++ e2.message] }
          "#status" "Estado: cargando fallback times.json (local)")
      rw [heq2] at h3
      simp only [] at h3
      cases hr : net LOCAL_TIMES_URL with
      | rejected m => rw [hr] at h3; simp at h3
      | response status body =>
        rw [hr] at h3
        cases hs : statusOk status <;> cases body <;> simp [hs] at h3 ⊢
        exact h3
    · next e3 w5 heq2 =>
      have h3 := fetchLocalTimes_fst net
        (World.query { w2 with warnings := w2.warnings ++ ["No se pudo usar endpoint en vivo: " ++ e2.message] }
          "#status" "Estado: cargando fallback times.json (local)")
      rw [heq2] at h3
      simp only [] at h3
      cases hr : net LOCAL_TIMES_URL with
      | rejected m => rfl
      | response status body =>
        rw [hr] at h3
        cases hs : statusOk status <;> cases body <;> simp [hs] at h3 ⊢

/-- C2: when the live fetch fails (the request is rejected, or the response has a non-success
status), `loadData` does not raise and its result is decided by the fallback fetch alone:
tagged `local` with the body when the fallback responds with a success status and a body
that parses, and tagged `none` with `null` when the fallback request is rejected, has a
non-success status, or has a body that does not parse. -/
theorem loadData_fallback (net : Net) (catId : Int) (w : World)
    (h : (∃ m, net (liveUrl catId) = .rejected m) ∨
         (∃ status body, net (liveUrl catId) = .response status body ∧ statusOk status = false)) :
    (∃ r, (loadData net catId w).1 = .ok r) ∧
    (∀ status b, net LOCAL_TIMES_URL = .response status (.ok b) → statusOk status = true →
      (loadData net catId w).1 = .ok { source := "local", data := b }) ∧
    (∀ m, net LOCAL_TIMES_URL = .rejected m →
      (loadData net catId w).1 = .ok { source := "none", data := .null }) ∧
    (∀ status body, net LOCAL_TIMES_URL = .response status body → statusOk status = false →
      (loadData net catId w).1 = .ok { source := "none", data := .null }) ∧
    (∀ status m, net LOCAL_TIMES_URL = .response status (.error m) →
      (loadData net catId w).1 = .ok { source := "none", data := .null }) := by
  have hfail : ∃ e, (fetchLiveEndpoint net catId w).1 = .error e := by
    simp only [fetchLiveEndpoint, fetch]
    rcases h with ⟨m, hm⟩ | ⟨status, body, hr, hs⟩
    · rw [hm]; exact ⟨_, rfl⟩
    · rw [hr]; simp [hs]
  obtain ⟨e, he⟩ := hfail
  have key := loadData_of_live_error net catId w e he
  refine ⟨?_, ?_, ?_, ?_, ?_⟩
  · rw [key]
    cases hr : net LOCAL_TIMES_URL with
    | rejected m => exact ⟨_, rfl⟩
    | response status body =>
      cases hs : statusOk status <;> cases body <;> simp [hs]
  · intro status b hr hs
    rw [key, hr]; simp [hs]
  · intro m hr
    rw [key, hr]
  · intro status body hr hs
    rw [key, hr]; simp [hs]
  · intro status m hr
    rw [key, hr]
    cases hs : statusOk status <;> simp

/-- Witness for `loadData_fallback`: the live request is rejected and the fallback file is
served with the body `[]`. -/
theorem loadData_fallback_witness :
    (∃ r, (loadData (fun url => if url = LOCAL_TIMES_URL then .response 200 (.ok (.arr []))
        else .rejected "Failed to fetch") 1 blankWorld).1 = .ok r) ∧
    (loadData (fun url => if url = LOCAL_TIMES_URL then .response 200 (.ok (.arr []))
        else .rejected "Failed to fetch") 1 blankWorld).1
      = .ok { source := "local", data := .arr [] } :=
  have h := loadData_fallback
    (fun url => if url = LOCAL_TIMES_URL then .response 200 (.ok (.arr []))
      else .rejected "Failed to fetch") 1 blankWorld (Or.inl ⟨"Failed to fetch", rfl⟩)
  ⟨h.1, h.2.1 200 (.arr []) rfl rfl⟩

/-- The requests made by `main` are those made by `loadData` for the resolved category. -/
theorem main_requests (net : Net) (loc : Location) (w : World) :
    (main net loc w).2.requests = (loadData net (mainCatId loc) w).2.requests := by
  unfold main
  simp only []
  split
  · next e w1 heq => rw [heq]
  · next result w1 heq =>
    rw [heq]
    split <;> rfl

/-- The first request made by `loadData` goes to the live endpoint of its category. -/
theorem loadData_requests (net : Net) (catId : Int) (w : World) :
    ∃ rest, (loadData net catId w).2.requests = w.requests ++ liveUrl catId :: rest := by
  have h2 := fetchLiveEndpoint_requests net catId
    (w.query "#status" "Estado: intentando obtener datos en vivo desde motogp.com ...")
  unfold loadData
  simp only []
  split
  · next data w2 heq =>
    rw [heq] at h2
    simp at h2
    exact ⟨[], by simp [h2, World.query]⟩
  · next e w2 heq =>
    rw [heq] at h2
    simp at h2
    subst h2
    simp only [fetchLocalTimes, fetch]
    refine ⟨[LOCAL_TIMES_URL], ?_⟩
    cases hr : net LOCAL_TIMES_URL with
    | rejected m => simp [World.query]
    | response status body =>
      cases hs : statusOk status <;> cases body <;> simp [World.query, hs]

/-- C3, as stated, fails: the value `-5` of `cat` does not parse as a positive integer, yet
`main` resolves the category id -5 and requests the live endpoint of category -5. -/
theorem mainCatId_negative :
    ¬ parsesPositive (qp { pathname := "/MotoLive/live.html", search := [("cat", "-5")] } "cat") ∧
    mainCatId { pathname := "/MotoLive/live.html", search := [("cat", "-5")] } = -5 ∧
    (main (fun _ => .rejected "Failed to fetch")
      { pathname := "/MotoLive/live.html", search := [("cat", "-5")] } blankWorld).2.requests
      = ["https://www.motogp.com/en/json/live_timing/-5", "/MotoLive/times.json"] := by
  refine ⟨?_, by decide, by decide⟩
  rintro ⟨s, n, hs, hp, hn⟩
  have h1 : s = "-5" := by
    have : qp { pathname := "/MotoLive/live.html", search := [("cat", "-5")] } "cat" = some "-5" := by
      decide
    rw [this] at hs
    exact (Option.some.inj hs).symm
  subst h1
  have h2 : parseInt "-5" = some (-5) := by decide
  rw [h2] at hp
  have h3 := Option.some.inj hp
  omega

/-- C3, amended: whenever the value of `cat` (absent, or any text) is not read by `parseInt`
as an integer other than zero, `main` resolves the default category id 1 and its first
request goes to the live endpoint of category 1. -/
theorem mainCatId_default (net : Net) (loc : Location) (w : World)
    (h : ¬ parsesNonZero (qp loc "cat")) :
    mainCatId loc = 1 ∧
    ∃ rest, (main net loc w).2.requests = w.requests ++ liveUrl 1 :: rest := by
  have h1 : mainCatId loc = 1 := by
    unfold mainCatId
    cases hq : qp loc "cat" with
    | none =>
      have : parseInt "null" = none := by decide
      simp [this]
    | some s =>
      simp only [Option.getD_some]
      cases hp : parseInt s with
      | none => rfl
      | some n =>
        by_cases hn : n = 0
        · simp [hn]
        · exact absurd ⟨s, n, hq, hp, hn⟩ h
  refine ⟨h1, ?_⟩
  rw [main_requests, h1]
  exact loadData_requests net 1 w

/-- Witness for `mainCatId_default`: the value `abc` of `cat`. -/
theorem mainCatId_default_witness :
    ¬ parsesNonZero (qp { pathname := "/MotoLive/live.html", search := [("cat", "abc")] } "cat") ∧
    mainCatId { pathname := "/MotoLive/live.html", search := [("cat", "abc")] } = 1 :=
  have h : ¬ parsesNonZero
      (qp { pathname := "/MotoLive/live.html", search := [("cat", "abc")] } "cat") := by
    rintro ⟨s, n, hs, hp, _⟩
    have h1 : qp { pathname := "/MotoLive/live.html", search := [("cat", "abc")] } "cat"
        = some "abc" := by decide
    rw [h1] at hs
    have h2 := Option.some.inj hs
    subst h2
    have h3 : parseInt "abc" = none := by decide
    rw [h3] at hp
    cases hp
  ⟨h, (mainCatId_default (fun _ => .rejected "Failed to fetch") _ blankWorld h).1⟩

/-- C4, evaluated: each renderer raises a TypeError on a parsed JSON payload: the live table
on the object with `pilots` holding 1, the records cards on the object with `MotoGP` holding
1, the circuit cards on a circuit list holding `null`, and the constructors table on the
empty object. -/
theorem renderers_raise :
    (updateLiveTableFromData 1 (.obj [("pilots", .num 1)]) blankPage).1
      = .error (.typeError "list.forEach is not a function") ∧
    (updateRecordsFromData (.obj [("MotoGP", .num 1)]) blankPage).1
      = .error (.typeError "list.map is not a function") ∧
    (updateCircuitsFromData (.obj [("circuits", .arr [.null])]) blankPage).1
      = .error (.typeError "Cannot read properties of null (reading clima)") ∧
    (updateConstructorsFromData (.obj []) blankPage).1
      = .error (.typeError "list.forEach is not a function") := by
  decide

/-- C5, evaluated: for the record `{}`, which carries none of the recognised names, the
records card and the circuit card print the name as the text `undefined`, and the
constructors row prints the inherited `constructor` function in place of the name; every
other field is its placeholder. -/
theorem empty_record_name :
    (updateRecordsFromData (.obj [("MotoGP", .arr [.obj []])]) blankPage).2.recordsArea
      = some [
        .element { tag := "div", className := "card", innerHTML :=
          "<h3>MotoGP</h3><ul><li><strong>undefined</strong> — - <small class='small'>(-/-, frenos:-)</small></li></ul>" },
        .element { tag := "div", className := "card", innerHTML :=
          "<h3>Moto2</h3><ul><li>No hay datos</li></ul>" },
        .element { tag := "div", className := "card", innerHTML :=
          "<h3>Moto3</h3><ul><li>No hay datos</li></ul>" }] ∧
    (updateCircuitsFromData (.obj [("circuits", .arr [.obj []])]) blankPage).2.circuitosList
      = some [
        .element { tag := "div", className := "card", innerHTML :=
          "<h3>undefined</h3>\n      <p class=\"muted\">Fechas: -</p>\n      <p>Último mejor: <strong>-</strong> - <small class='small'>(- / - frenos: -)</small></p>\n      <p class='small'>Clima: - · Ambiente -°C · Pista -°C</p>" }] ∧
    (updateConstructorsFromData (.arr [.obj []]) blankPage).2.constructoresTable
      = some [
        .table "table" "<thead><tr><th>Constructor</th><th>Puntos</th></tr></thead>"
          [{ tag := "tr", className := "", innerHTML :=
            "<td><span class='pilot-color' style='background:#888'></span>function Object() \x7b [native code] \x7d</td><td>0</td>" }]] ∧
    (updateLiveTableFromData 1 (.arr [.obj []]) blankPage).2.liveTbody
      = some [
        .element { tag := "tr", className := "", innerHTML :=
          "<td>1</td><td>Piloto</td><td>-</td><td>- / -</td><td>-</td>" }] :=
  ⟨rfl, rfl, rfl, rfl⟩

/-- C6, evaluated: on the payload whose `MotoGP` property is the number 5,
`updateRecordsFromData` raises a TypeError in the first category and leaves the container
empty; when it is the `Moto2` property that holds 5, the exception comes in the second
category and the container is left with the MotoGP card alone. -/
theorem records_cards_cut_short :
    updateRecordsFromData (.obj [("MotoGP", .num 5)]) blankPage
      = (.error (.typeError "list.map is not a function"),
         { blankPage with recordsArea := some [] }) ∧
    updateRecordsFromData (.obj [("Moto2", .num 5)]) blankPage
      = (.error (.typeError "list.map is not a function"),
         { blankPage with recordsArea := some [
           .element { tag := "div", className := "card", innerHTML :=
             "<h3>MotoGP</h3><ul><li>No hay datos</li></ul>" }] }) := by
  decide

/-- C8, evaluated: on a circuit list with the single entry `null`, `updateCircuitsFromData`
raises a TypeError and leaves the container empty: no circuit card is rendered for the one
entry. -/
theorem circuits_null_entry :
    updateCircuitsFromData (.obj [("circuits", .arr [.null])]) blankPage
      = (.error (.typeError "Cannot read properties of null (reading clima)"),
         { blankPage with circuitosList := some [] }) := by
  decide

/-- C9, evaluated: on the constructors page, when the live endpoint answers with the empty
object, `updateConstructorsFromData` raises, `main` ends with that exception and no timer is
set: no further run of `main` is scheduled. -/
theorem main_stops_polling :
    (main (fun _ => .response 200 (.ok (.obj [])))
      { pathname := "/MotoLive/constructores.html", search := [] } blankWorld).1
      = .error (.typeError "list.forEach is not a function") ∧
    (main (fun _ => .response 200 (.ok (.obj [])))
      { pathname := "/MotoLive/constructores.html", search := [] } blankWorld).2.timers = [] := by
  decide

/-- A chain of `||` that starts from a truthy value has that value. -/
theorem orList_truthy (x : Val) (bs : List (Except JSError Val)) (h : x.truthy = true) :
    orList (.ok x) bs = .ok x := by
  induction bs with
  | nil => rfl
  | cons b bs ih =>
    have : orList (.ok x) (b :: bs) = orList (jsOr (.ok x) b) bs := rfl
    rw [this]
    simp only [jsOr, h, if_true]
    exact ih

theorem truthy_str (s : String) (h : s ≠ "") : (Val.json (.str s)).truthy = true := by
  simp [Val.truthy, h]

/-- The row built for a rider record. -/
theorem liveRow_rider (p : JSON) (r : Rider) (i : Nat) (h : IsRider p r) :
    Node.element <$> liveRow p i = .ok (riderRow (i + 1) r) := by
  obtain ⟨fs, ts, rfl, hn, hn0, hb, hb0, ht, hf, hf0, hr, hr0, hk, hk0, hother⟩ := h
  have o1 := hother "tyreFront" (by simp [otherLiveKeys])
  have o2 := hother "t_front" (by simp [otherLiveKeys])
  have o3 := hother "del" (by simp [otherLiveKeys])
  have o4 := hother "tyreRear" (by simp [otherLiveKeys])
  have o5 := hother "t_rear" (by simp [otherLiveKeys])
  have o6 := hother "tras" (by simp [otherLiveKeys])
  have e1 : orList (getProp (.json (.obj fs)) "name")
      [getProp (.json (.obj fs)) "p", getProp (.json (.obj fs)) "riderName",
       getProp (.json (.obj fs)) "fullName", getProp (.json (.obj fs)) "piloto",
       getProp (.json (.obj fs)) "title", getProp (.json (.obj fs)) "nickname", lit "Piloto"]
      = .ok (.json (.str r.name)) := by
    have : getProp (.json (.obj fs)) "name" = .ok (.json (.str r.name)) := by simp [getProp, hn]
    rw [this]
    exact orList_truthy _ _ (truthy_str _ hn0)
  have e2 : orList (getProp (.json (.obj fs)) "best")
      [getProp (.json (.obj fs)) "time", getProp (.json (.obj fs)) "lap",
       getProp (.json (.obj fs)) "bestTime",
       jsAnd (getProp (.json (.obj fs)) "t") (getOf (getProp (.json (.obj fs)) "t") "0"), lit "-"]
      = .ok (.json (.str r.best)) := by
    have : getProp (.json (.obj fs)) "best" = .ok (.json (.str r.best)) := by simp [getProp, hb]
    rw [this]
    exact orList_truthy _ _ (truthy_str _ hb0)
  have e5 : orList (getProp (.json (.obj fs)) "brakes")
      [getProp (.json (.obj fs)) "frenos", getProp (.json (.obj fs)) "brake", lit "-"]
      = .ok (.json (.str r.brakes)) := by
    have : getProp (.json (.obj fs)) "brakes" = .ok (.json (.str r.brakes)) := by simp [getProp, hk]
    rw [this]
    exact orList_truthy _ _ (truthy_str _ hk0)
  have e3 : orList (getProp (.json (.obj fs)) "tyreFront")
      [getProp (.json (.obj fs)) "t_front", getProp (.json (.obj fs)) "del",
       jsAnd (getProp (.json (.obj fs)) "tyres") (getOf (getProp (.json (.obj fs)) "tyres") "front"),
       getProp (.json (.obj fs)) "tyres0", lit "-"]
      = .ok (.json (.str r.front)) := by
    simp [orList, jsOr, jsAnd, getOf, getProp, o1, o2, o3, ht, hf, Val.truthy, hf0]
  have e4 : orList (getProp (.json (.obj fs)) "tyreRear")
      [getProp (.json (.obj fs)) "t_rear", getProp (.json (.obj fs)) "tras",
       jsAnd (getProp (.json (.obj fs)) "tyres") (getOf (getProp (.json (.obj fs)) "tyres") "rear"),
       lit "-"]
      = .ok (.json (.str r.rear)) := by
    simp [orList, jsOr, jsAnd, getOf, getProp, o4, o5, o6, ht, hr, Val.truthy, hr0]
  simp only [liveRow, e1, e2, e3, e4, e5]
  simp [template, Val.toStr, JSON.toStr, riderRow, bind, Except.bind, Functor.map, Except.map,
    pure, Except.pure, String.append_assoc]
  have : ((i : Int) + 1) = ((i + 1 : Nat) : Int) := by push_cast; rfl
  rw [this]
  rfl

/-- The loop over a list of rider records appends their rows and does not raise. -/
theorem appendEach_riders (ps : List JSON) (rs : List Rider) (h : List.Forall₂ IsRider ps rs) :
    ∀ (i : Nat) (acc : List Node),
      appendEach liveRow ps i acc = (.ok (), acc ++ riderRows (i + 1) rs) := by
  induction h with
  | nil => intro i acc; simp [appendEach, riderRows]
  | @cons p r ps rs hpr _ ih =>
    intro i acc
    have h1 := liveRow_rider p r i hpr
    cases hrow : liveRow p i with
    | error e => rw [hrow] at h1; cases h1
    | ok el =>
      rw [hrow] at h1
      have h2 : Node.element el = riderRow (i + 1) r := by
        simpa [Functor.map, Except.map] using h1
      simp only [appendEach, hrow, riderRows]
      rw [ih (i + 1) (acc ++ [Node.element el]), h2]
      simp

theorem indexOfKey_pilots : indexOfKey "pilots" = none := by decide

theorem indexOfKey_rows : indexOfKey "rows" = none := by decide

theorem indexOfKey_data : indexOfKey "data" = none := by decide

/-- The markup of the table body for a list of rider records: given an object whose `pilots`
property is the list, or given the list itself, `updateLiveTableFromData` does not raise and
replaces the children of the table body by the row elements of the riders. -/
theorem live_table_markup (catId : Int) (fs : List (String × JSON)) (ps : List JSON)
    (rs : List Rider) (pg : Page) (old : List Node)
    (hpg : pg.liveTbody = some old)
    (hfs : lookup "pilots" fs = some (.arr ps))
    (h : List.Forall₂ IsRider ps rs) :
    updateLiveTableFromData catId (.obj fs) pg
      = (.ok (), { pg with liveTbody := some (riderRows 1 rs) }) ∧
    updateLiveTableFromData catId (.arr ps) pg
      = (.ok (), { pg with liveTbody := some (riderRows 1 rs) }) := by
  have hloop := appendEach_riders ps rs h 0 []
  constructor
  · have hrows : liveRows (.json (.obj fs)) = .ok (.json (.arr ps)) := by
      simp [liveRows, jsIf, jsAnd, getProp, hfs, Val.truthy]
    simp [updateLiveTableFromData, hpg, hrows, arrayMethod, hloop]
  · have hrows : liveRows (.json (.arr ps)) = .ok (.json (.arr ps)) := by
      simp [liveRows, jsIf, jsAnd, jsIsArray, isArray, getProp, Val.truthy, indexOfKey_pilots,
        indexOfKey_rows]
    simp [updateLiveTableFromData, hpg, hrows, arrayMethod, hloop]

/-- Plain text is read through to the next tag. -/
theorem readText_plain (t rest txt : List Char) (h : ∀ c ∈ t, isMarkupChar c = false) :
    readText (t ++ rest) txt = readText rest (txt ++ t) := by
  induction t generalizing txt with
  | nil => simp
  | cons c cs ih =>
    have hc := h c (by simp)
    have hlt : c ≠ '<' := by
      intro hc2; subst hc2; simp [isMarkupChar] at hc
    have ih2 := ih (txt ++ [c]) (fun d hd => h d (by simp [hd]))
    simp only [List.cons_append, readText, hlt, if_false, hc]
    simpa using ih2

theorem plainText_iff (s : String) :
    plainText s = true ↔ ∀ c ∈ s.data, isMarkupChar c = false := by
  simp [plainText, List.all_eq_true]

theorem digitChar_plain : ∀ m, m < 10 → isMarkupChar (Nat.digitChar m) = false := by
  decide

theorem toDigitsCore_plain (fuel : Nat) : ∀ (n : Nat) (ds : List Char),
    (∀ c ∈ ds, isMarkupChar c = false) →
    ∀ c ∈ Nat.toDigitsCore 10 fuel n ds, isMarkupChar c = false := by
  induction fuel with
  | zero => intro n ds h; simpa [Nat.toDigitsCore] using h
  | succ f ih =>
    intro n ds h
    simp only [Nat.toDigitsCore]
    have hd := digitChar_plain (n % 10) (Nat.mod_lt _ (by norm_num))
    split
    · intro c hc
      simp at hc
      rcases hc with rfl | hc
      · exact hd
      · exact h c hc
    · apply ih
      intro c hc
      simp at hc
      rcases hc with rfl | hc
      · exact hd
      · exact h c hc

/-- The decimal numeral of a position is plain text. -/
theorem plainText_index (k : Nat) : plainText (toString k) = true := by
  rw [plainText_iff]
  have : (toString k).data = Nat.toDigits 10 k := rfl
  rw [this]
  exact toDigitsCore_plain _ _ _ (by simp)

/-- The text `front / rear` of two plain texts is plain. -/
theorem plainText_tyres (a b : String) (ha : plainText a = true) (hb : plainText b = true) :
    plainText (a ++ " / " ++ b) = true := by
  rw [plainText_iff] at *
  intro c hc
  simp only [String.data_append, List.mem_append] at hc
  rcases hc with (hc | hc) | hc
  · exact ha c hc
  · have : c = ' ' ∨ c = '/' ∨ c = ' ' := by simpa using hc
    rcases this with rfl | rfl | rfl <;> decide
  · exact hb c hc

/-- One cell of plain text is read as a `td` tag with its text and the closing tag. -/
theorem readText_cell (t : String) (rest : List Char) (ht : plainText t = true) :
    readText (("<td>" ++ t ++ "</td>").data ++ rest) [] =
      match readText rest [] with
      | some (x, ps) => some ("", ("td", t) :: ("/td", x) :: ps)
      | none => none := by
  rw [plainText_iff] at ht
  have h1 : ("<td>" ++ t ++ "</td>").data ++ rest
      = '<' :: 't' :: 'd' :: '>' :: (t.data ++ ('<' :: '/' :: 't' :: 'd' :: '>' :: rest)) := by
    simp [String.data_append]
  rw [h1]
  have h2 := readText_plain t.data ('<' :: '/' :: 't' :: 'd' :: '>' :: rest) [] ht
  simp only [readText, readTag, if_true, List.nil_append, h2]
  simp only [show ('t' = '>') = False by decide, show ('d' = '>') = False by decide,
    show ('/' = '>') = False by decide, if_false, if_true, List.cons_append, List.nil_append,
    readTag, readText]
  cases readText rest [] with
  | none => rfl
  | some v => rfl

/-- The markup of a row of plain cells is read back as those cells. -/
theorem readText_cellsMarkup (ts : List String) (h : ∀ t ∈ ts, plainText t = true) :
    readText (cellsMarkup ts).data [] =
      some ("", cellPairs ts) := by
  induction ts with
  | nil => rfl
  | cons t ts ih =>
    have h1 : (cellsMarkup (t :: ts)).data
        = ("<td>" ++ t ++ "</td>").data ++ (cellsMarkup ts).data := by
      simp [cellsMarkup, String.data_append]
    rw [h1, readText_cell t _ (h t (by simp)), ih (fun u hu => h u (by simp [hu]))]
    rfl

theorem cellsOfPairs_cells (ts : List String) :
    cellsOfPairs (cellPairs ts) = some ts := by
  induction ts with
  | nil => rfl
  | cons t ts ih =>
    simp [cellPairs, cellsOfPairs, ih]

/-- The cells of a row of plain texts are those texts. -/
theorem rowCells_cellsMarkup (ts : List String) (h : ∀ t ∈ ts, plainText t = true) :
    rowCells (cellsMarkup ts) = some ts := by
  simp [rowCells, readText_cellsMarkup ts h, cellsOfPairs_cells]

/-- The cells of the row element of a rider with plain texts. -/
theorem tableCells_riderRows (rs : List Rider) (h : ∀ r ∈ rs, PlainRider r) :
    ∀ k, tableCells (riderRows k rs) = some (cellsFrom k rs) := by
  induction rs with
  | nil => intro k; rfl
  | cons r rs ih =>
    intro k
    obtain ⟨h1, h2, h3, h4, h5⟩ := h r (by simp)
    have hm : ("<td>" ++ toString k ++ "</td><td>" ++ r.name ++ "</td><td>" ++ r.best ++
        "</td><td>" ++ r.front ++ " / " ++ r.rear ++ "</td><td>" ++ r.brakes ++ "</td>")
        = cellsMarkup (riderCells k r) := by
      apply String.ext
      simp [cellsMarkup, riderCells, String.data_append]
    have hc : rowCells (cellsMarkup (riderCells k r)) = some (riderCells k r) := by
      apply rowCells_cellsMarkup
      intro t ht
      simp only [riderCells, List.mem_cons, List.mem_singleton, List.not_mem_nil, or_false] at ht
      rcases ht with rfl | rfl | rfl | rfl | rfl
      · exact plainText_index k
      · exact h1
      · exact h2
      · exact plainText_tyres _ _ h3 h4
      · exact h5
    simp only [riderRows, riderRow, tableCells, if_true, hm, hc, cellsFrom,
      ih (fun u hu => h u (by simp [hu])) (k + 1)]

/-- C7, as stated, fails: the record with the name `A</td><td>B` and the best time `C` has
non-empty texts under the five names and no other recognised name, yet the one row rendered
for it has the six cells 1, A, B, C, `f / r`, b; the record with the name `A` and the best
time `B</td><td>C` is rendered to the very same row, so the row cannot show both names. -/
theorem live_row_cells_injected :
    IsRider (.obj [("name", .str "A</td><td>B"), ("best", .str "C"),
        ("tyres", .obj [("front", .str "f"), ("rear", .str "r")]), ("brakes", .str "b")])
      { name := "A</td><td>B", best := "C", front := "f", rear := "r", brakes := "b" } ∧
    (updateLiveTableFromData 1
      (.arr [.obj [("name", .str "A</td><td>B"), ("best", .str "C"),
        ("tyres", .obj [("front", .str "f"), ("rear", .str "r")]), ("brakes", .str "b")]])
      blankPage).2.liveTbody
      = some [.element { tag := "tr", className := "", innerHTML :=
          "<td>1</td><td>A</td><td>B</td><td>C</td><td>f / r</td><td>b</td>" }] ∧
    rowCells "<td>1</td><td>A</td><td>B</td><td>C</td><td>f / r</td><td>b</td>"
      = some ["1", "A", "B", "C", "f / r", "b"] ∧
    tableCells [.element { tag := "tr", className := "", innerHTML :=
          "<td>1</td><td>A</td><td>B</td><td>C</td><td>f / r</td><td>b</td>" }]
      ≠ some (cellsFrom 1
          [{ name := "A</td><td>B", best := "C", front := "f", rear := "r", brakes := "b" }]) ∧
    IsRider (.obj [("name", .str "A"), ("best", .str "B</td><td>C"),
        ("tyres", .obj [("front", .str "f"), ("rear", .str "r")]), ("brakes", .str "b")])
      { name := "A", best := "B</td><td>C", front := "f", rear := "r", brakes := "b" } ∧
    (updateLiveTableFromData 1
      (.arr [.obj [("name", .str "A"), ("best", .str "B</td><td>C"),
        ("tyres", .obj [("front", .str "f"), ("rear", .str "r")]), ("brakes", .str "b")]])
      blankPage).2.liveTbody
      = some [.element { tag := "tr", className := "", innerHTML :=
          "<td>1</td><td>A</td><td>B</td><td>C</td><td>f / r</td><td>b</td>" }] := by
  refine ⟨?_, by decide, by decide, by decide, ?_, by decide⟩
  · exact ⟨_, [("front", .str "f"), ("rear", .str "r")], rfl, rfl, by decide, rfl, by decide,
      rfl, rfl, by decide, rfl, by decide, rfl, by decide, by simp [otherLiveKeys, lookup]⟩
  · exact ⟨_, [("front", .str "f"), ("rear", .str "r")], rfl, rfl, by decide, rfl, by decide,
      rfl, rfl, by decide, rfl, by decide, rfl, by decide, by simp [otherLiveKeys, lookup]⟩

/-- C7, amended: for a list of rider records, each with non-empty texts under `name`, `best`,
`tyres.front`, `tyres.rear` and `brakes`, none of them containing `<`, `&`, a carriage return
or a NUL character, and no other recognised name, `updateLiveTableFromData` given an object
whose `pilots` property is the list, or given the list itself, does not raise and replaces
the children of the table body by exactly one row per record in list order, the k-th (from 1)
having the cells k, name, best, `front / rear`, brakes. -/
theorem live_table_cells (catId : Int) (fs : List (String × JSON)) (ps : List JSON)
    (rs : List Rider) (pg : Page) (old : List Node)
    (hpg : pg.liveTbody = some old)
    (hfs : lookup "pilots" fs = some (.arr ps))
    (h : List.Forall₂ IsRider ps rs)
    (hplain : ∀ r ∈ rs, PlainRider r) :
    ∃ rows : List Node,
      updateLiveTableFromData catId (.obj fs) pg = (.ok (), { pg with liveTbody := some rows }) ∧
      updateLiveTableFromData catId (.arr ps) pg = (.ok (), { pg with liveTbody := some rows }) ∧
      rows.length = ps.length ∧
      tableCells rows = some (cellsFrom 1 rs) := by
  have hm := live_table_markup catId fs ps rs pg old hpg hfs h
  refine ⟨riderRows 1 rs, hm.1, hm.2, ?_, tableCells_riderRows rs hplain 1⟩
  have hlen : ∀ (l : List Rider) (k : Nat), (riderRows k l).length = l.length := by
    intro l
    induction l with
    | nil => intro k; rfl
    | cons r l ih => intro k; simp [riderRows, ih]
  rw [hlen, h.length_eq]

/-- Witness for `live_table_cells`: the single record of Rider A gives the one row with the
cells `1 | Rider A | 1:59.123 | soft / medium | Brembo`, and the empty array gives no row and
no exception. -/
theorem live_table_cells_witness :
    (∃ rows : List Node,
      updateLiveTableFromData 1 (.arr []) blankPage
        = (.ok (), { blankPage with liveTbody := some rows }) ∧ rows.length = 0) ∧
    ∃ rows : List Node,
      (updateLiveTableFromData 1
        (.obj [("pilots", .arr [.obj [("name", .str "Rider A"), ("best", .str "1:59.123"),
          ("tyres", .obj [("front", .str "soft"), ("rear", .str "medium")]),
          ("brakes", .str "Brembo")]])]) blankPage).2.liveTbody = some rows ∧
      rows.length = 1 ∧
      tableCells rows = some [["1", "Rider A", "1:59.123", "soft / medium", "Brembo"]] := by
  obtain ⟨rows, h1, -, h3, h4⟩ := live_table_cells 1
    [("pilots", .arr [.obj [("name", .str "Rider A"), ("best", .str "1:59.123"),
        ("tyres", .obj [("front", .str "soft"), ("rear", .str "medium")]),
        ("brakes", .str "Brembo")]])]
    [.obj [("name", .str "Rider A"), ("best", .str "1:59.123"),
        ("tyres", .obj [("front", .str "soft"), ("rear", .str "medium")]),
        ("brakes", .str "Brembo")]]
    [{ name := "Rider A", best := "1:59.123", front := "soft", rear := "medium", brakes := "Brembo" }]
    blankPage [] rfl rfl
    (List.Forall₂.cons
      ⟨_, [("front", .str "soft"), ("rear", .str "medium")], rfl, rfl, by decide, rfl, by decide,
        rfl, rfl, by decide, rfl, by decide, rfl, by decide,
        by simp [otherLiveKeys, lookup]⟩
      List.Forall₂.nil)
    (by
      intro r hr
      simp only [List.mem_singleton] at hr
      subst hr
      exact ⟨by decide, by decide, by decide, by decide, by decide⟩)
  refine ⟨?_, rows, by rw [h1], h3, h4⟩
  obtain ⟨none_, -, e2, e3, -⟩ := live_table_cells 1 [("pilots", .arr [])] [] [] blankPage []
    rfl rfl List.Forall₂.nil (by simp)
  exact ⟨none_, e2, e3⟩

/-- On a truthy payload, the reads of `pilots`, `rows` and `data` give the own property. -/
theorem getProp_ownProp (payload : JSON) (k : String)
    (hk : k = "pilots" ∨ k = "rows" ∨ k = "data")
    (ht : (Val.json payload).truthy = true) :
    getProp (.json payload) k = .ok (ownProp payload k) := by
  rcases hk with rfl | rfl | rfl <;> cases payload <;>
    simp_all [getProp, ownProp, Val.truthy, indexOfKey_pilots, indexOfKey_rows, indexOfKey_data] <;>
    split <;> simp_all

/-- A falsy payload has none of the three properties and is not an array. -/
theorem ownProp_falsy (payload : JSON) (k : String)
    (ht : (Val.json payload).truthy = false) :
    ownProp payload k = .undefined ∧ isArray (.json payload) = false := by
  cases payload <;> simp_all [ownProp, Val.truthy, isArray]

theorem truthy_bool (b : Bool) : (Val.json (.bool b)).truthy = b := rfl

/-- The list chosen by the code is the list the specification describes. -/
theorem liveRows_eq_specRows (payload : JSON) :
    liveRows (.json payload) = .ok (specRows payload) := by
  cases ht : (Val.json payload).truthy with
  | false =>
    obtain ⟨-, h2⟩ := ownProp_falsy payload "pilots" ht
    have h1 := fun k => (ownProp_falsy payload k ht).1
    have hu : Val.undefined.truthy = false := rfl
    simp [liveRows, specRows, jsIf, jsAnd, jsIsArray, ht, h1, h2, hu, truthy_bool]
    rfl
  | true =>
    have p1 := getProp_ownProp payload "pilots" (Or.inl rfl) ht
    have p2 := getProp_ownProp payload "rows" (Or.inr (Or.inl rfl)) ht
    have p3 := getProp_ownProp payload "data" (Or.inr (Or.inr rfl)) ht
    simp only [liveRows, specRows, jsIf, jsAnd, jsIsArray, ht, p1, p2, p3, if_true]
    by_cases c1 : (ownProp payload "pilots").truthy = true
    · simp [c1]
    · simp only [c1, if_false, Bool.false_eq_true]
      by_cases c2 : (ownProp payload "rows").truthy = true
      · simp [c2]
      · simp only [c2, if_false, Bool.false_eq_true]
        by_cases c3 : isArray (.json payload) = true
        · simp [c3, truthy_bool]
        · simp only [c3, if_false, Bool.false_eq_true, truthy_bool]
          by_cases c4 : (ownProp payload "data").truthy = true
          · by_cases c5 : isArray (ownProp payload "data") = true
            · simp [c4, c5, truthy_bool]
            · simp [c4, c5, truthy_bool]
          · have c5 : isArray (ownProp payload "data") = false := by
              cases hd : ownProp payload "data" with
              | undefined => rfl
              | builtin f => rfl
              | json j =>
                cases j <;> simp_all [isArray, Val.truthy]
            simp [c4, c5]

/-- C10: for every payload, the list `updateLiveTableFromData` iterates over is the first match
in the order `pilots` property, `rows` property, the payload itself when it is an array, the
`data` property when that is an array, else the empty list (a property matching when its
value is truthy), and the rows appended to the table body are those the loop builds from the
entries of that one list: when the list is an array, the outcome is that of the loop over its
entries; when nothing matches, zero rows and no exception; when the chosen value is not an
array, zero rows. -/
theorem live_rows_priority (catId : Int) (payload : JSON) (pg : Page) (old : List Node)
    (hpg : pg.liveTbody = some old) :
    liveRows (.json payload) = .ok (specRows payload) ∧
    (∀ xs, specRows payload = .json (.arr xs) →
      updateLiveTableFromData catId payload pg
        = ((appendEach liveRow xs 0 []).1,
           { pg with liveTbody := some (appendEach liveRow xs 0 []).2 })) ∧
    (specRows payload = .json (.arr []) →
      updateLiveTableFromData catId payload pg = (.ok (), { pg with liveTbody := some [] })) ∧
    ((∀ xs, specRows payload ≠ .json (.arr xs)) →
      (updateLiveTableFromData catId payload pg).2 = { pg with liveTbody := some [] }) := by
  have hrows := liveRows_eq_specRows payload
  refine ⟨hrows, ?_, ?_, ?_⟩
  · intro xs hxs
    simp [updateLiveTableFromData, hpg, hrows, hxs, arrayMethod]
  · intro hxs
    simp [updateLiveTableFromData, hpg, hrows, hxs, arrayMethod, appendEach]
  · intro hne
    simp only [updateLiveTableFromData, hpg, hrows]
    cases hs : specRows payload with
    | undefined => rfl
    | builtin f => rfl
    | json j =>
      cases j with
      | arr xs => exact absurd hs (hne xs)
      | _ => rfl

/-- Witness for `live_rows_priority`: a payload with both `pilots` and `rows` renders the
`pilots` records only. -/
theorem live_rows_priority_witness :
    specRows (.obj [("pilots", .arr [.obj [("name", .str "A")]]),
        ("rows", .arr [.obj [("name", .str "B")]])])
      = .json (.arr [.obj [("name", .str "A")]]) ∧
    (updateLiveTableFromData 1
      (.obj [("pilots", .arr [.obj [("name", .str "A")]]),
        ("rows", .arr [.obj [("name", .str "B")]])]) blankPage).2.liveTbody
      = some [.element { tag := "tr", className := "", innerHTML :=
          "<td>1</td><td>A</td><td>-</td><td>- / -</td><td>-</td>" }] := by
  refine ⟨rfl, ?_⟩
  rw [(live_rows_priority 1
    (.obj [("pilots", .arr [.obj [("name", .str "A")]]),
        ("rows", .arr [.obj [("name", .str "B")]])]) blankPage [] rfl).2.1
    [.obj [("name", .str "A")]] rfl]
  rfl

/-- The loader never raises: both fetch failures are caught. -/
theorem loadData_ok (net : Net) (catId : Int) (w : World) :
    ∃ r, (loadData net catId w).1 = .ok r := by
  unfold loadData
  simp only []
  split
  · exact ⟨_, rfl⟩
  · split <;> exact ⟨_, rfl⟩

/-- The loader sets no timer. -/
theorem loadData_timers (net : Net) (catId : Int) (w : World) :
    (loadData net catId w).2.timers = w.timers := by
  have h2 := fetchLiveEndpoint_requests net catId
    (w.query "#status" "Estado: intentando obtener datos en vivo desde motogp.com ...")
  unfold loadData
  simp only []
  split
  · next data w2 heq =>
    rw [heq] at h2
    simp at h2
    simp [h2, World.query]
  · next e w2 heq =>
    rw [heq] at h2
    simp at h2
    subst h2
    simp only [fetchLocalTimes, fetch]
    cases hr : net LOCAL_TIMES_URL with
    | rejected m => simp [World.query]
    | response status body =>
      cases hs : statusOk status <;> cases body <;> simp [World.query, hs]

/-- A run of `main` that ends without an exception sets exactly one timer, with the delay
`REFRESH_MS`; a run that ends with an exception sets none. -/
theorem main_timers (net : Net) (loc : Location) (w : World) :
    ((main net loc w).1 = .ok () → (main net loc w).2.timers = w.timers ++ [REFRESH_MS]) ∧
    (∀ e, (main net loc w).1 = .error e → (main net loc w).2.timers = w.timers) := by
  have ht := loadData_timers net (mainCatId loc) w
  unfold main
  simp only []
  rcases hl : loadData net (mainCatId loc) w with ⟨r, w1⟩
  rw [hl] at ht
  simp only [] at ht
  cases r with
  | error e => simp [ht]
  | ok result =>
    simp only []
    rcases hr : renderPage (pageName loc.pathname) (mainCatId loc) result.data w1.page with ⟨r2, pg⟩
    cases r2 with
    | error e => simp [ht]
    | ok u => simp [ht]

/-- Whenever the list chosen by `updateCircuitsFromData` has `length` equal to 0, the container
is left with the single placeholder card. -/
theorem circuits_no_entries (payload : JSON) (pg : Page) (old : List Node) (list len : Val)
    (hpg : pg.circuitosList = some old)
    (hlist : circuitsList (.json payload) = .ok list)
    (hlen : getProp list "length" = .ok len)
    (hzero : strictEqZero len = true) :
    updateCircuitsFromData payload pg
      = (.ok (), { pg with circuitosList := some [.markup noCircuitsCard] }) := by
  simp [updateCircuitsFromData, hpg, hlist, hlen, hzero]

end MotoLive
